import Mathlib

/-!
Shallow embedding of the curve-following robot controller
(`robot/curve_follower.py`): sensor-frame classification, PID steering,
pattern detection, the navigation state-machine handlers, and the QR
scan-result interpreter.  Real-valued quantities are modelled over `ℚ`
(the Python floats carry exact decimal constants and the properties of
interest are exact-arithmetic properties).  Wall-clock time is modelled
by passing the elapsed time-in-state as an explicit parameter.
-/

namespace CurveRobot

/-- States of the navigation state machine (`CurveFollowerState`). -/
inductive CurveFollowerState
  | init
  | waiting_start
  | line_following
  | curve_detection
  | curve_following
  | dot_detection
  | crossing_analysis
  | qr_scanning
  | goal_reached
  | error_recovery
  deriving DecidableEq

/-- Curve classifications (`CurveType`). -/
inductive CurveType
  | straight
  | gentle_left
  | gentle_right
  | sharp_left
  | sharp_right
  deriving DecidableEq

/-- A sensor frame: exactly 5 boolean readings, index 0 = far left,
index 4 = far right. -/
structure Sensors where
  s0 : Bool
  s1 : Bool
  s2 : Bool
  s3 : Bool
  s4 : Bool
  deriving DecidableEq

/-- Python `sum(sensors)`: the number of active sensors in a frame. -/
def activeCount (s : Sensors) : Nat :=
  s.s0.toNat + s.s1.toNat + s.s2.toNat + s.s3.toNat + s.s4.toNat

/-- Python `any(sensors)`. -/
def anySensor (s : Sensors) : Bool :=
  s.s0 || s.s1 || s.s2 || s.s3 || s.s4

/-- Speed profile entry `speeds['normal']`. -/
def speed_normal : ℚ := 0.25

/-- Speed profile entry `speeds['curve_gentle']`. -/
def speed_curve_gentle : ℚ := 0.20

/-- Speed profile entry `speeds['curve_sharp']`. -/
def speed_curve_sharp : ℚ := 0.15

/-- Speed profile entry `speeds['dot_approach']`. -/
def speed_dot_approach : ℚ := 0.12

/-- Proportional gain `pid_kp`. -/
def pid_kp : ℚ := 0.8

/-- Integral gain `pid_ki`. -/
def pid_ki : ℚ := 0.1

/-- Derivative gain `pid_kd`. -/
def pid_kd : ℚ := 0.3

/-- Fixed tick period `update_interval` (20 Hz). -/
def update_interval : ℚ := 0.05

/-- Confirmation threshold `curve_detection_threshold`. -/
def curve_detection_threshold : Nat := 2

/-- Embedding of `_calculate_line_position`: weighted average of the active
sensors with weights `[-2, -1, 0, 1, 2]`; `0.0` when no sensor is active. -/
def _calculate_line_position (sensors : Sensors) : ℚ :=
  let weighted_sum : ℚ :=
    (if sensors.s0 then -2 else 0) + (if sensors.s1 then -1 else 0) +
    (if sensors.s2 then 0 else 0) + (if sensors.s3 then 1 else 0) +
    (if sensors.s4 then 2 else 0)
  let total_weight : ℚ :=
    (if sensors.s0 then 1 else 0) + (if sensors.s1 then 1 else 0) +
    (if sensors.s2 then 1 else 0) + (if sensors.s3 then 1 else 0) +
    (if sensors.s4 then 1 else 0)
  if 0 < total_weight then weighted_sum / total_weight else 0

/-- Embedding of `_detect_curve_type`: classify the frame from the counts of
active sensors on the left pair, the centre, and the right pair. -/
def _detect_curve_type (s : Sensors) : CurveType :=
  let left_sensors := s.s0.toNat + s.s1.toNat
  let center_sensor := s.s2
  let right_sensors := s.s3.toNat + s.s4.toNat
  if center_sensor ∧ left_sensors = 0 ∧ right_sensors = 0 then
    CurveType.straight
  else if 2 ≤ left_sensors then
    if left_sensors = 2 then CurveType.sharp_left else CurveType.gentle_left
  else if 2 ≤ right_sensors then
    if right_sensors = 2 then CurveType.sharp_right else CurveType.gentle_right
  else if left_sensors = 1 ∧ center_sensor then
    CurveType.gentle_left
  else if right_sensors = 1 ∧ center_sensor then
    CurveType.gentle_right
  else
    CurveType.straight

/-- Number of value changes between consecutive entries of a boolean list
(the Python `sum(1 for i in range(1, len(xs)) if xs[i] != xs[i-1])`). -/
def countChanges : List Bool → Nat
  | a :: b :: rest => (if a ≠ b then 1 else 0) + countChanges (b :: rest)
  | _ => 0

/-- Embedding of `_is_dot_pattern`: with fewer than 3 frames of history the
answer is `false`; otherwise the centre-sensor values of the last 3 frames
must change at least twice between consecutive frames. -/
def _is_dot_pattern (history : List Sensors) : Bool :=
  if history.length < 3 then false
  else
    let recent_readings := history.drop (history.length - 3)
    let center_readings := recent_readings.map (fun r => r.s2)
    decide (2 ≤ countChanges center_readings)

/-- Embedding of `_is_crossing`: at least 4 active sensors. -/
def _is_crossing (s : Sensors) : Bool :=
  decide (4 ≤ activeCount s)

/-- Embedding of `_is_all_white`: no sensor active. -/
def _is_all_white (s : Sensors) : Bool :=
  !(anySensor s)

/-- Embedding of `_is_all_black`: every sensor active. -/
def _is_all_black (s : Sensors) : Bool :=
  s.s0 && s.s1 && s.s2 && s.s3 && s.s4

/-- The mutable PID accumulator (`pid_integral`, `pid_previous_error`). -/
structure PidState where
  pid_integral : ℚ
  pid_previous_error : ℚ
  deriving DecidableEq

/-- Embedding of `_pid_control`: one PID step.  Returns the pair of wheel
speeds together with the updated accumulator state. -/
def _pid_control (st : PidState) (line_position : ℚ) : (ℚ × ℚ) × PidState :=
  let error := line_position
  let pid_integral := st.pid_integral + error * update_interval
  let derivative := (error - st.pid_previous_error) / update_interval
  let pid_output := pid_kp * error + pid_ki * pid_integral + pid_kd * derivative
  let base_speed := speed_normal
  let max_adjustment := base_speed * 0.8
  let pid_output2 := max (-max_adjustment) (min max_adjustment pid_output)
  let left_speed := base_speed - pid_output2
  let right_speed := base_speed + pid_output2
  let left_speed2 := max 0 (min 1 left_speed)
  let right_speed2 := max 0 (min 1 right_speed)
  ((left_speed2, right_speed2), ⟨pid_integral, error⟩)

/-- Embedding of `_curve_following_speeds`: per-curve wheel speeds from the
speed profile table. -/
def _curve_following_speeds : CurveType → ℚ × ℚ
  | CurveType.gentle_left => (speed_curve_gentle * 0.7, speed_curve_gentle)
  | CurveType.gentle_right => (speed_curve_gentle, speed_curve_gentle * 0.7)
  | CurveType.sharp_left => (speed_curve_sharp * 0.5, speed_curve_sharp)
  | CurveType.sharp_right => (speed_curve_sharp, speed_curve_sharp * 0.5)
  | CurveType.straight => (speed_normal, speed_normal)

/-- The controller fields a state handler reads and writes: the tracked curve
type, the confidence counter, the PID accumulator and the sensor history. -/
structure Machine where
  current_curve_type : CurveType
  curve_confidence : Nat
  pid : PidState
  sensor_history : List Sensors
  deriving DecidableEq

/-- Result of one handler invocation: the next state, the updated controller
fields, and the motor command emitted this tick (if any). -/
structure StepResult where
  next : CurveFollowerState
  machine : Machine
  cmd : Option (ℚ × ℚ)
  deriving DecidableEq

/-- Embedding of `_handle_line_following`: priority checks (all-white with
1 s grace, crossing, dot, curve), then PID drive. -/
def _handle_line_following (m : Machine) (sensors : Sensors)
    (time_in_state : ℚ) : StepResult :=
  if _is_all_white sensors then
    if 1 < time_in_state then ⟨CurveFollowerState.error_recovery, m, none⟩
    else ⟨CurveFollowerState.line_following, m, none⟩
  else if _is_crossing sensors then
    ⟨CurveFollowerState.crossing_analysis, m, none⟩
  else if _is_dot_pattern m.sensor_history then
    ⟨CurveFollowerState.dot_detection, m, none⟩
  else
    let curve_type := _detect_curve_type sensors
    if curve_type ≠ CurveType.straight then
      ⟨CurveFollowerState.curve_detection,
        { m with current_curve_type := curve_type }, none⟩
    else
      let r := _pid_control m.pid (_calculate_line_position sensors)
      ⟨CurveFollowerState.line_following, { m with pid := r.2 }, some r.1⟩

/-- Embedding of `_handle_curve_detection`: an agreeing re-classification
increments the confidence counter (entering curve following at the
threshold); a disagreeing one resets it (exiting to line following when
re-classified straight); PID drive continues meanwhile. -/
def _handle_curve_detection (m : Machine) (sensors : Sensors) : StepResult :=
  let curve_type := _detect_curve_type sensors
  if curve_type = m.current_curve_type then
    let m1 := { m with curve_confidence := m.curve_confidence + 1 }
    if curve_detection_threshold ≤ m1.curve_confidence then
      ⟨CurveFollowerState.curve_following, m1, none⟩
    else
      let r := _pid_control m1.pid (_calculate_line_position sensors)
      ⟨CurveFollowerState.curve_detection, { m1 with pid := r.2 }, some r.1⟩
  else
    let m1 := { m with curve_confidence := 0 }
    if curve_type = CurveType.straight then
      ⟨CurveFollowerState.line_following, m1, none⟩
    else
      let r := _pid_control m1.pid (_calculate_line_position sensors)
      ⟨CurveFollowerState.curve_detection, { m1 with pid := r.2 }, some r.1⟩

/-- Embedding of `_handle_curve_following`: exit to line following (resetting
confidence) when re-classified straight, otherwise check crossing and dot,
otherwise drive with the curve-specific speeds. -/
def _handle_curve_following (m : Machine) (sensors : Sensors) : StepResult :=
  let curve_type := _detect_curve_type sensors
  if curve_type = CurveType.straight then
    ⟨CurveFollowerState.line_following, { m with curve_confidence := 0 }, none⟩
  else if _is_crossing sensors then
    ⟨CurveFollowerState.crossing_analysis, m, none⟩
  else if _is_dot_pattern m.sensor_history then
    ⟨CurveFollowerState.dot_detection, m, none⟩
  else
    ⟨CurveFollowerState.curve_following, m,
      some (_curve_following_speeds m.current_curve_type)⟩

/-- Embedding of `_handle_error_recovery`: time-banded nudge commands, exit
to line following when any sensor is active, goal after the 5 s timeout. -/
def _handle_error_recovery (sensors : Sensors) (recovery_time : ℚ) :
    CurveFollowerState × (ℚ × ℚ) :=
  let cmd : ℚ × ℚ :=
    if recovery_time < 1 then (0.1, 0.2)
    else if recovery_time < 2 then (0.2, 0.1)
    else (0.15, 0.15)
  if anySensor sensors then (CurveFollowerState.line_following, cmd)
  else if 5 < recovery_time then (CurveFollowerState.goal_reached, cmd)
  else (CurveFollowerState.error_recovery, cmd)

/-- ASCII lowercasing of a character sequence (Python `str.lower` restricted
to the ASCII strings the QR handler compares against). -/
def toLowerList (s : List Char) : List Char :=
  s.map Char.toLower

/-- Does `needle` occur at the head of `haystack`? -/
def beginsWith : List Char → List Char → Bool
  | [], _ => true
  | _ :: _, [] => false
  | a :: as, b :: bs => a = b && beginsWith as bs

/-- Python substring containment `needle in haystack` on character lists. -/
def containsSub (needle : List Char) : List Char → Bool
  | [] => needle.isEmpty
  | b :: bs => beginsWith needle (b :: bs) || containsSub needle bs

/-- Outcome of the QR scan-result handler: the motor command held for a given
duration (if one is issued), the state entered, and the boolean the handler
returns (`true` = continue, `false` = goal reached / stop). -/
structure QrDecision where
  cmd : Option ((ℚ × ℚ) × ℚ)
  next : CurveFollowerState
  continue_run : Bool
  deriving DecidableEq

/-- Embedding of `handle_qr_result`.  A `none` input models Python `None`;
`not qr_result` is true exactly on `None` and the empty string, after which
the literal `"0"` is checked, then case-insensitive containment of
`"right"`, then of `"left"`; anything else is the goal. -/
def handle_qr_result (qr_result : Option (List Char)) : QrDecision :=
  match qr_result with
  | none =>
    ⟨some ((speed_normal, speed_normal), 1), CurveFollowerState.line_following, true⟩
  | some s =>
    if s = [] ∨ s = ['0'] then
      ⟨some ((speed_normal, speed_normal), 1), CurveFollowerState.line_following, true⟩
    else
      let low := toLowerList s
      if containsSub ['r', 'i', 'g', 'h', 't'] low then
        ⟨some ((speed_curve_sharp, speed_curve_sharp * 0.3), 2),
          CurveFollowerState.line_following, true⟩
      else if containsSub ['l', 'e', 'f', 't'] low then
        ⟨some ((speed_curve_sharp * 0.3, speed_curve_sharp), 2),
          CurveFollowerState.line_following, true⟩
      else
        ⟨none, CurveFollowerState.goal_reached, false⟩

/-- Run `_pid_control` over a list of error inputs from a given accumulator
state, collecting the emitted speed pairs and the final accumulator. -/
def pidRun : List ℚ → PidState → List (ℚ × ℚ) × PidState
  | [], st => ([], st)
  | e :: es, st =>
    let r := _pid_control st e
    let rest := pidRun es r.2
    (r.1 :: rest.1, rest.2)

/-- Curve classification as specified, amended to match the code: the sharp
patterns (both sensors of one side active) are checked before the gentle
ones, and a gentle pattern additionally requires the centre sensor; within
the same severity the left side wins. -/
def curve_type_spec (s : Sensors) : CurveType :=
  let L := s.s0.toNat + s.s1.toNat
  let C := s.s2
  let R := s.s3.toNat + s.s4.toNat
  if C ∧ L = 0 ∧ R = 0 then CurveType.straight
  else if L = 2 then CurveType.sharp_left
  else if R = 2 then CurveType.sharp_right
  else if L = 1 ∧ C then CurveType.gentle_left
  else if R = 1 ∧ C then CurveType.gentle_right
  else CurveType.straight

/-- Dot detection as specified, as a function of the centre-sensor value
sequence alone: at least 3 entries, and at least 2 value changes among the
last 3 entries. -/
def is_dot_spec (centers : List Bool) : Bool :=
  if centers.length < 3 then false
  else decide (2 ≤ countChanges (centers.drop (centers.length - 3)))

/-- Line position as specified: the list of weights of the active sensors
(weights `-2, -1, 0, 1, 2` for indices 0..4); their sum divided by their
number, and `0` when no sensor is active. -/
def line_position_spec (s : Sensors) : ℚ :=
  let weights : List ℚ := [-2, -1, 0, 1, 2]
  let flags : List Bool := [s.s0, s.s1, s.s2, s.s3, s.s4]
  let act := (List.zip flags weights).filter (fun p => p.1)
  if act.length = 0 then 0 else (act.map (fun p => p.2)).sum / (act.length : ℚ)

/-- One PID step as specified: `integral += error*dt`,
`derivative = (error - previous_error)/dt`,
`output = 0.8*error + 0.1*integral + 0.3*derivative`, output clamped to
±(baseSpeed·0.8) with baseSpeed the normal profile speed, wheel speeds
`baseSpeed ∓ output` each clamped to `[0,1]`, and `error` stored as the new
previous error. -/
def pid_spec (st : PidState) (error : ℚ) : (ℚ × ℚ) × PidState :=
  let integral := st.pid_integral + error * update_interval
  let derivative := (error - st.pid_previous_error) / update_interval
  let output := 0.8 * error + 0.1 * integral + 0.3 * derivative
  let baseSpeed := speed_normal
  let clamped := max (-(baseSpeed * 0.8)) (min (baseSpeed * 0.8) output)
  ((max 0 (min 1 (baseSpeed - clamped)), max 0 (min 1 (baseSpeed + clamped))),
    ⟨integral, error⟩)

/-- The raw (unclamped) PID output of one step. -/
def pid_raw_output (st : PidState) (error : ℚ) : ℚ :=
  pid_kp * error + pid_ki * (st.pid_integral + error * update_interval) +
    pid_kd * ((error - st.pid_previous_error) / update_interval)

/-- The PID output after clamping to ±(baseSpeed·0.8). -/
def pid_clamped_output (st : PidState) (error : ℚ) : ℚ :=
  max (-(speed_normal * 0.8)) (min (speed_normal * 0.8) (pid_raw_output st error))

/-- The LineFollowing tick as the specification's transition table states
it: all-white first (with the 1 s grace period), then crossing, then dot,
then a non-straight curve classification; the PID drive command is computed
and emitted only when none of the checks match. -/
def line_following_spec (m : Machine) (sensors : Sensors) (t : ℚ) : StepResult :=
  if _is_all_white sensors then
    if 1 < t then ⟨CurveFollowerState.error_recovery, m, none⟩
    else ⟨CurveFollowerState.line_following, m, none⟩
  else if _is_crossing sensors then
    ⟨CurveFollowerState.crossing_analysis, m, none⟩
  else if _is_dot_pattern m.sensor_history then
    ⟨CurveFollowerState.dot_detection, m, none⟩
  else if _detect_curve_type sensors ≠ CurveType.straight then
    ⟨CurveFollowerState.curve_detection,
      { m with current_curve_type := _detect_curve_type sensors }, none⟩
  else
    ⟨CurveFollowerState.line_following,
      { m with pid := (_pid_control m.pid (_calculate_line_position sensors)).2 },
      some (_pid_control m.pid (_calculate_line_position sensors)).1⟩

/-- The scan-result interpreter rules as specified: absence, the empty
string and the literal "0" mean "no result" (forward nudge at normal speed
for 1 s, then line following); then case-insensitive containment of
"right" (sharp turn, inner wheel at 30 %, held 2 s); then of "left"
(mirrored); any other string is the goal. -/
def qr_interpreter_spec (qr_result : Option (List Char)) : QrDecision :=
  let s := qr_result.getD []
  if qr_result = none ∨ s = [] ∨ s = ['0'] then
    ⟨some ((speed_normal, speed_normal), 1), CurveFollowerState.line_following, true⟩
  else if containsSub ['r', 'i', 'g', 'h', 't'] (toLowerList s) then
    ⟨some ((speed_curve_sharp, speed_curve_sharp * 0.3), 2),
      CurveFollowerState.line_following, true⟩
  else if containsSub ['l', 'e', 'f', 't'] (toLowerList s) then
    ⟨some ((speed_curve_sharp * 0.3, speed_curve_sharp), 2),
      CurveFollowerState.line_following, true⟩
  else
    ⟨none, CurveFollowerState.goal_reached, false⟩

/-- C1, counterexample: the claim requires GentleLeft for a frame whose only
active sensor is index 0 (exactly one of the left pair active, centre
inactive), but `_detect_curve_type` classifies that frame as Straight. -/
theorem detect_curve_type_single_left_without_center :
    _detect_curve_type ⟨true, false, false, false, false⟩ = CurveType.straight ∧
    _detect_curve_type ⟨true, false, false, false, false⟩ ≠ CurveType.gentle_left := by
  decide

/-- C1, amended: for every 5-sensor frame, `_detect_curve_type` returns
Straight when only the centre sensor is active; otherwise SharpLeft when
both left sensors are active; otherwise SharpRight when both right sensors
are active; otherwise GentleLeft when exactly one left sensor AND the
centre are active; otherwise GentleRight when exactly one right sensor AND
the centre are active; and Straight in every remaining case.  Sharp
patterns take precedence over gentle ones, and left over right within the
same severity. -/
theorem detect_curve_type_eq_spec :
    ∀ a b c d e : Bool,
      _detect_curve_type ⟨a, b, c, d, e⟩ = curve_type_spec ⟨a, b, c, d, e⟩ := by
  decide

/-- C2, counterexample: in CurveFollowing with tracked type SharpLeft and
confidence 2, the frame `[T,T,F,T,T]` (a crossing, still classified
SharpLeft) transitions to CrossingAnalysis — a non-curve state — while the
curve-confidence counter keeps its value 2 instead of being reset to 0. -/
theorem curve_following_crossing_keeps_confidence :
    (_handle_curve_following ⟨CurveType.sharp_left, 2, ⟨0, 0⟩, []⟩
        ⟨true, true, false, true, true⟩).next = CurveFollowerState.crossing_analysis ∧
    (_handle_curve_following ⟨CurveType.sharp_left, 2, ⟨0, 0⟩, []⟩
        ⟨true, true, false, true, true⟩).machine.curve_confidence = 2 := by
  decide

/-- C2, amended: per tick, the curve-confidence counter is updated exactly
as follows.  In CurveDetection it becomes `confidence + 1` when the
classification agrees with the tracked CurveType and 0 when it disagrees;
in CurveFollowing it becomes 0 when the classification is Straight (the
exit to LineFollowing) and is left unchanged otherwise — in particular the
exits from CurveFollowing to CrossingAnalysis or DotDetection do not reset
it. -/
theorem curve_confidence_update_rule (m : Machine) (s : Sensors) :
    (_handle_curve_detection m s).machine.curve_confidence =
      (if _detect_curve_type s = m.current_curve_type
        then m.curve_confidence + 1 else 0) ∧
    (_handle_curve_following m s).machine.curve_confidence =
      (if _detect_curve_type s = CurveType.straight
        then 0 else m.curve_confidence) := by
  constructor
  · simp only [_handle_curve_detection]
    split_ifs <;> rfl
  · simp only [_handle_curve_following]
    split_ifs <;> rfl

/-- C3, counterexample: from a fresh PID state with the default gains and
dt = 0.05, the third call of the run on errors `[1, 1, 1]` and the third
call of the run on errors `[1, -1, 1]` return the SAME speed pair
`(0.05, 0.45)` — the ±0.2 output clamp saturates on both — contradicting
the claimed strict difference. -/
theorem pid_third_call_outputs_coincide :
    ((pidRun [1, 1, 1] ⟨0, 0⟩).1)[2]? = ((pidRun [1, -1, 1] ⟨0, 0⟩).1)[2]? ∧
    ((pidRun [1, 1, 1] ⟨0, 0⟩).1)[2]? = some ((0.05 : ℚ), (0.45 : ℚ)) := by
  norm_num [pidRun, _pid_control, speed_normal, pid_kp, pid_ki, pid_kd,
    update_interval, max_def, min_def]

/-- C3, amended: from a fresh PID state with the default gains and
dt = 0.05, the runs on error sequences `[1, 1, 1]` and `[1, -1, 1]` are
order-dependent, but not on the third call: they differ on the SECOND call
(`(0.05, 0.45)` versus `(0.45, 0.05)`) and in the accumulated integral
after the third call (`0.15` versus `0.05`), while both third calls return
the same clamped pair `(0.05, 0.45)`. -/
theorem pid_run_order_dependence :
    pidRun [1, 1, 1] ⟨0, 0⟩ =
      ([(0.05, 0.45), (0.05, 0.45), (0.05, 0.45)], ⟨0.15, 1⟩) ∧
    pidRun [1, -1, 1] ⟨0, 0⟩ =
      ([(0.05, 0.45), (0.45, 0.05), (0.05, 0.45)], ⟨0.05, 1⟩) := by
  norm_num [pidRun, _pid_control, speed_normal, pid_kp, pid_ki, pid_kd,
    update_interval, max_def, min_def]

/-- C4: `handle_qr_result` is total on optional strings and agrees with the
specified rule order everywhere: absence, the empty string and the literal
"0" give a 1 s forward nudge at the normal speed then LineFollowing
(continue); otherwise containment of "right" (case-insensitive) gives the
sharp right turn (left wheel at the full sharp speed, right wheel at 30 %)
held 2 s then LineFollowing; then "left" the mirrored turn; any other
string gives GoalReached (stop). -/
theorem handle_qr_result_eq_spec (q : Option (List Char)) :
    handle_qr_result q = qr_interpreter_spec q := by
  cases q with
  | none => rfl
  | some s =>
    simp only [handle_qr_result, qr_interpreter_spec, Option.getD]
    by_cases h : s = [] ∨ s = ['0']
    · simp [h]
    · simp [h]

/-- C5: in the LineFollowing state the checks run in strict priority order:
all-white first (ErrorRecovery only after more than 1 s in state, otherwise
stay), then crossing, then dot pattern, then a non-straight curve
classification; only when none of them match is the PID drive command
computed and emitted, with the state staying LineFollowing. -/
theorem handle_line_following_eq_spec (m : Machine) (sensors : Sensors)
    (t : ℚ) :
    _handle_line_following m sensors t = line_following_spec m sensors t := by
  rfl

/-- C6: one call of `_pid_control` performs exactly the specified update:
`integral += error*dt`, `derivative = (error - previous_error)/dt`,
`output = 0.8*error + 0.1*integral + 0.3*derivative`, the output clamped to
±(baseSpeed·0.8) with baseSpeed the normal profile speed, the returned pair
`(baseSpeed - output, baseSpeed + output)` each clamped to `[0,1]`, and
`error` stored as the next previous error. -/
theorem pid_control_eq_spec (st : PidState) (error : ℚ) :
    _pid_control st error = pid_spec st error := by
  rfl

/-- C7, counterexample: with an all-white frame at time-in-state exactly
5.0 s, `_handle_error_recovery` stays in ErrorRecovery — the timeout
requires strictly more than 5.0 s, while the claim demands GoalReached once
5.0 s is reached. -/
theorem error_recovery_boundary_at_five :
    (_handle_error_recovery ⟨false, false, false, false, false⟩ 5).1 =
      CurveFollowerState.error_recovery ∧
    (_handle_error_recovery ⟨false, false, false, false, false⟩ 5).1 ≠
      CurveFollowerState.goal_reached := by
  constructor <;> decide

/-- C7, amended: in ErrorRecovery the emitted command is banded by
time-in-state (left nudge `(0.1, 0.2)` before 1 s, right nudge `(0.2, 0.1)`
in `[1 s, 2 s)`, crawl `(0.15, 0.15)` from 2 s on), and the next state is
LineFollowing when any sensor of the current frame is active, GoalReached
when the frame is all-white and time-in-state STRICTLY exceeds 5.0 s, and
ErrorRecovery otherwise. -/
theorem handle_error_recovery_cases (sensors : Sensors) (t : ℚ) :
    (_handle_error_recovery sensors t).2 =
      (if t < 1 then ((0.1 : ℚ), (0.2 : ℚ))
       else if t < 2 then (0.2, 0.1)
       else (0.15, 0.15)) ∧
    (_handle_error_recovery sensors t).1 =
      (if anySensor sensors then CurveFollowerState.line_following
       else if 5 < t then CurveFollowerState.goal_reached
       else CurveFollowerState.error_recovery) := by
  constructor <;> simp only [_handle_error_recovery] <;> split_ifs <;> rfl

/-- C8: `_is_dot_pattern` equals the specified dot test applied to the
centre-sensor value sequence of the history: it returns true iff the
history holds at least 3 frames and the centre values of the last 3 frames
change at least twice between consecutive frames; with fewer than 3 frames
it is false; the result depends only on the centre sensor of the last 3
frames. -/
theorem is_dot_pattern_characterization (history : List Sensors) :
    _is_dot_pattern history = is_dot_spec (history.map (fun r => r.s2)) := by
  simp only [_is_dot_pattern, is_dot_spec, List.length_map, List.map_drop]

/-- C9: for every 5-sensor frame, `_calculate_line_position` equals the sum
of the weights `{-2, -1, 0, 1, 2}` of the active sensors divided by the
number of active sensors, lies in `[-2, 2]`, returns exactly the weight of
the single active sensor when there is exactly one, and returns 0 on the
all-inactive frame. -/
theorem calculate_line_position_characterization :
    (∀ a b c d e : Bool,
        _calculate_line_position ⟨a, b, c, d, e⟩ = line_position_spec ⟨a, b, c, d, e⟩ ∧
        -2 ≤ _calculate_line_position ⟨a, b, c, d, e⟩ ∧
        _calculate_line_position ⟨a, b, c, d, e⟩ ≤ 2) ∧
    _calculate_line_position ⟨true, false, false, false, false⟩ = -2 ∧
    _calculate_line_position ⟨false, true, false, false, false⟩ = -1 ∧
    _calculate_line_position ⟨false, false, true, false, false⟩ = 0 ∧
    _calculate_line_position ⟨false, false, false, true, false⟩ = 1 ∧
    _calculate_line_position ⟨false, false, false, false, true⟩ = 2 ∧
    _calculate_line_position ⟨false, false, false, false, false⟩ = 0 := by
  constructor
  · intro a b c d e
    cases a <;> cases b <;> cases c <;> cases d <;> cases e <;>
      norm_num [_calculate_line_position, line_position_spec, List.zip]
  · norm_num [_calculate_line_position]

/-- C10: for every accumulated PID state and every error, the pair returned
by `_pid_control` is exactly `(baseSpeed - output, baseSpeed + output)` for
the clamped output — so the final `[0,1]` clamp never alters either wheel
speed — each component lies in `[0.05, 0.45]`, and their sum is exactly
twice the normal base speed: steering redistributes speed between the
wheels without changing the total. -/
theorem pid_control_bounds_and_sum (st : PidState) (e : ℚ) :
    ((_pid_control st e).1).1 = speed_normal - pid_clamped_output st e ∧
    ((_pid_control st e).1).2 = speed_normal + pid_clamped_output st e ∧
    0.05 ≤ ((_pid_control st e).1).1 ∧ ((_pid_control st e).1).1 ≤ 0.45 ∧
    0.05 ≤ ((_pid_control st e).1).2 ∧ ((_pid_control st e).1).2 ≤ 0.45 ∧
    ((_pid_control st e).1).1 + ((_pid_control st e).1).2 = 2 * speed_normal := by
  have hub : pid_clamped_output st e ≤ 1/5 := by
    refine max_le (by norm_num [speed_normal]) ?_
    exact le_trans (min_le_left _ _) (by norm_num [speed_normal])
  have hlb : -(1/5) ≤ pid_clamped_output st e := by
    refine le_trans (by norm_num [speed_normal]) (le_max_left _ _)
  have hsn : speed_normal = 1/4 := by norm_num [speed_normal]
  have h1 : ((_pid_control st e).1).1 =
      max 0 (min 1 (speed_normal - pid_clamped_output st e)) := rfl
  have h2 : ((_pid_control st e).1).2 =
      max 0 (min 1 (speed_normal + pid_clamped_output st e)) := rfl
  have hl : ((_pid_control st e).1).1 = speed_normal - pid_clamped_output st e := by
    rw [h1, min_eq_right (by rw [hsn]; linarith), max_eq_right (by rw [hsn]; linarith)]
  have hr : ((_pid_control st e).1).2 = speed_normal + pid_clamped_output st e := by
    rw [h2, min_eq_right (by rw [hsn]; linarith), max_eq_right (by rw [hsn]; linarith)]
  refine ⟨hl, hr, ?_, ?_, ?_, ?_, ?_⟩ <;> simp only [hl, hr, hsn] <;>
    norm_num <;> linarith

end CurveRobot
